import Mathlib

/-!
Shallow embedding of `drivers/input/touchscreen/fts_521/fts_lib/ftsGesture.c`
(STMicroelectronics FTS gesture utilities).

Bytes (`u8`) are modelled as `Nat` values; theorems that depend on the byte
range carry explicit `< 256` hypotheses.  C `int` return codes are modelled
as their 32-bit bit patterns (`Nat < 2^32`); the C signed comparison
`res < OK` becomes `toSigned res < toSigned OK`.  The external collaborators
(`setFeatures`, `setScanMode`, the interrupt primitives and the frame-buffer
read `fts_writeReadU8UX`) are out of scope per the spec: each embedded
function takes their return codes as oracle arguments and records the calls
it issues, in order, in a trace of `ExtCall` values.
-/

/-- Modelled from the spec: `OK` comes from `ftsError.h`, which is not under
`src/`; the spec fixes only that it is the success code, `0`. -/
def OKcode : Nat := 0

/-- Modelled from the spec: `ERROR_OP_NOT_ALLOW` comes from `ftsError.h`,
which is not under `src/`; it is a 32-bit error code with the sign bit set
(negative as a C `int`), used both as the `InvalidArgument` result and as the
"coordinates unavailable" sentinel count. -/
def ERROR_OP_NOT_ALLOW : Nat := 0x80000004

/-- Modelled from the spec: `ERROR_DISABLE_INTER` comes from `ftsError.h`
(not under `src/`); a distinct error tag bit pattern with the sign bit set,
OR-combined onto the underlying error. -/
def ERROR_DISABLE_INTER : Nat := 0x80000200

/-- Modelled from the spec: `ERROR_ENABLE_INTER` comes from `ftsError.h`
(not under `src/`); a distinct error tag bit pattern with the sign bit set. -/
def ERROR_ENABLE_INTER : Nat := 0x80000400

/-- Modelled from the spec: `GESTURE_MASK_SIZE` comes from `ftsGesture.h`
(not under `src/`); the driver's gesture mask is 4 bytes. -/
def GESTURE_MASK_SIZE : Nat := 4

/-- Modelled from the spec: `GESTURE_MAX_COORDS_PAIRS_REPORT` comes from
`ftsSoftware.h` (not under `src/`); the driver's coordinate arrays hold 100
pairs. -/
def GESTURE_MAX_COORDS_PAIRS_REPORT : Nat := 100

/-- Modelled from the spec: `FEAT_ENABLE` comes from `ftsSoftware.h` (not
under `src/`); the selector value meaning "enable". -/
def FEAT_ENABLE : Int := 1

/-- Modelled from the spec: `FEAT_DISABLE` comes from `ftsSoftware.h` (not
under `src/`); the selector value meaning "disable", distinct from
`FEAT_ENABLE`. -/
def FEAT_DISABLE : Int := 0

/-- Modelled from the spec: `FEAT_SEL_GESTURE` comes from `ftsSoftware.h`
(not under `src/`); the feature-configuration selector for gestures.  Its
value is irrelevant to the claims. -/
def FEAT_SEL_GESTURE : Nat := 0x02

/-- Modelled from the spec: `EVT_ID_USER_REPORT` comes from `ftsSoftware.h`
(not under `src/`); the event id byte of a user-report event. -/
def EVT_ID_USER_REPORT : Nat := 0x43

/-- Modelled from the spec: `EVT_TYPE_USER_GESTURE` comes from
`ftsSoftware.h` (not under `src/`); the event type byte of a user-gesture
event. -/
def EVT_TYPE_USER_GESTURE : Nat := 0x02

/-- Modelled from the spec: `FTS_CMD_FRAMEBUFFER_R` comes from
`ftsSoftware.h` (not under `src/`); the opcode of the frame-buffer read. -/
def FTS_CMD_FRAMEBUFFER_R : Nat := 0xA6

/-- Modelled from the spec: `BITS_16` comes from `ftsSoftware.h` (not under
`src/`); the 16-bit address-width selector of the transport read. -/
def BITS_16 : Nat := 2

/-- Modelled from the spec: `DUMMY_FRAMEBUFFER` comes from `ftsCore.h` (not
under `src/`); the dummy-byte count of the frame-buffer read. -/
def DUMMY_FRAMEBUFFER : Nat := 1

/-- Modelled from the spec: `SCAN_MODE_LOW_POWER` comes from `ftsSoftware.h`
(not under `src/`); the low-power gesture scan mode value. -/
def SCAN_MODE_LOW_POWER : Nat := 2

/-- Reinterpret a 32-bit pattern as a signed C `int`. -/
def toSigned (n : Nat) : Int :=
  if n < 2 ^ 31 then (n : Int) else (n : Int) - 2 ^ 32

/-- The C test `res < OK` on `int` return codes (signed comparison). -/
def isErr (res : Nat) : Bool :=
  decide (toSigned res < toSigned OKcode)

/-- The mutable state of `ftsGesture.c`: `gesture_mask`,
`refreshGestureMask`, the two coordinate arrays and
`gesture_coords_reported` (an `int`, stored as its 32-bit pattern). -/
structure GState where
  gesture_mask : List Nat
  refreshGestureMask : Nat
  gesture_coordinates_x : List Nat
  gesture_coordinates_y : List Nat
  gesture_coords_reported : Nat
  deriving Repr, DecidableEq

/-- The initial state of the C translation unit: mask and coordinate arrays
zero-initialized, `refreshGestureMask = 0`, and
`gesture_coords_reported = ERROR_OP_NOT_ALLOW` (line 32 of the source). -/
def initState : GState :=
  { gesture_mask := List.replicate GESTURE_MASK_SIZE 0
    refreshGestureMask := 0
    gesture_coordinates_x := List.replicate GESTURE_MAX_COORDS_PAIRS_REPORT 0
    gesture_coordinates_y := List.replicate GESTURE_MAX_COORDS_PAIRS_REPORT 0
    gesture_coords_reported := ERROR_OP_NOT_ALLOW }

/-- One call to an external collaborator, recorded in issue order. -/
inductive ExtCall where
  | setFeatures (sel : Nat) (payload : List Nat) (len : Nat)
  | setScanMode (mode : Nat) (param : Nat)
  | disableInterrupt
  | enableInterrupt
  | readFrameBuffer (opcode : Nat) (addrWidth : Nat) (address : Nat)
      (len : Nat) (dummy : Nat)
  deriving Repr, DecidableEq

/-- The per-byte OR merge of the enable branches:
`gesture_mask[i] = gesture_mask[i] | mask[i]`. -/
def orOp (b d : Nat) : Nat := b ||| d

/-- The per-byte clear of the disable branches, written exactly as in the
source: `temp = gesture_mask[i] ^ mask[i]; gesture_mask[i] = temp & gesture_mask[i]`. -/
def clearOp (b d : Nat) : Nat := (b ^^^ d) &&& b

/-- The C loop `for (i = 0; i < size; i++) gesture_mask[i] = f(gesture_mask[i], mask[i])`:
combine the first `size` bytes of the stored mask with the delta. -/
def updBytes (f : Nat → Nat → Nat) : List Nat → List Nat → Nat → List Nat
  | gm, _, 0 => gm
  | [], _, _ + 1 => []
  | b :: gm, delta, n + 1 => f b (delta.getD 0 0) :: updBytes f gm delta.tail n

/-- `updateGestureMask(mask, size, en)` (lines 43-94): validates the mask
pointer, the size and the selector, then OR-merges (`FEAT_ENABLE`) or clears
(`FEAT_DISABLE`) the delta into the stored mask and sets
`refreshGestureMask`.  Returns the new state and the `int` result. -/
def updateGestureMask (st : GState) (mask : Option (List Nat)) (size : Int)
    (en : Int) : GState × Nat :=
  match mask with
  | none => (st, ERROR_OP_NOT_ALLOW)
  | some m =>
    if size ≤ (GESTURE_MASK_SIZE : Int) then
      if en = FEAT_ENABLE then
        ({ st with
            gesture_mask := updBytes orOp st.gesture_mask m size.toNat
            refreshGestureMask := 1 }, OKcode)
      else if en = FEAT_DISABLE then
        ({ st with
            gesture_mask := updBytes clearOp st.gesture_mask m size.toNat
            refreshGestureMask := 1 }, OKcode)
      else (st, ERROR_OP_NOT_ALLOW)
    else (st, ERROR_OP_NOT_ALLOW)

/-- `enableGesture(mask, size)` (lines 102-136): validates the size,
OR-merges a non-null delta into the stored mask, then pushes the entire
stored mask (`GESTURE_MASK_SIZE` bytes) to firmware via
`setFeatures(FEAT_SEL_GESTURE, gesture_mask, GESTURE_MASK_SIZE)`.
`featRes` is the oracle result of that push; the function returns it when it
is an error and `OK` otherwise. -/
def enableGesture (st : GState) (mask : Option (List Nat)) (size : Int)
    (featRes : Nat) : GState × Nat × List ExtCall :=
  if size ≤ (GESTURE_MASK_SIZE : Int) then
    let st1 : GState :=
      match mask with
      | some m =>
        { st with gesture_mask := updBytes orOp st.gesture_mask m size.toNat }
      | none => st
    (st1, if isErr featRes then featRes else OKcode,
      [ExtCall.setFeatures FEAT_SEL_GESTURE st1.gesture_mask GESTURE_MASK_SIZE])
  else (st, ERROR_OP_NOT_ALLOW, [])

/-- `disableGesture(mask, size)` (lines 144-185): validates the size; with a
non-null delta it clears the delta's bits in the stored mask and pushes the
updated stored mask; with a null delta it pushes `GESTURE_MASK_SIZE` bytes
taken from a zeroed local `int` (an all-zero payload, since
`GESTURE_MASK_SIZE` ≤ `sizeof(int)` and `i = 0`), leaving the stored mask
untouched. -/
def disableGesture (st : GState) (mask : Option (List Nat)) (size : Int)
    (featRes : Nat) : GState × Nat × List ExtCall :=
  if size ≤ (GESTURE_MASK_SIZE : Int) then
    let st1 : GState :=
      match mask with
      | some m =>
        { st with gesture_mask := updBytes clearOp st.gesture_mask m size.toNat }
      | none => st
    let payload : List Nat :=
      match mask with
      | some _ => st1.gesture_mask
      | none => List.replicate GESTURE_MASK_SIZE 0
    (st1, if isErr featRes then featRes else OKcode,
      [ExtCall.setFeatures FEAT_SEL_GESTURE payload GESTURE_MASK_SIZE])
  else (st, ERROR_OP_NOT_ALLOW, [])

/-- The `END:` label of `enterGestureMode` (lines 223-231):
`ret = fts_enableInterrupt(); if (ret < OK) res |= ret | ERROR_ENABLE_INTER; return res;`. -/
def finishEGM (st : GState) (res : Nat) (calls : List ExtCall) (eRes : Nat) :
    GState × Nat × List ExtCall :=
  if isErr eRes then
    (st, res ||| (eRes ||| ERROR_ENABLE_INTER), calls ++ [ExtCall.enableInterrupt])
  else
    (st, res, calls ++ [ExtCall.enableInterrupt])

/-- The tail of `enterGestureMode` from line 215: `setScanMode(SCAN_MODE_LOW_POWER, 0)`,
falling through to `END:` whether it fails or succeeds. -/
def afterScan (st : GState) (calls : List ExtCall) (sRes eRes : Nat) :
    GState × Nat × List ExtCall :=
  let calls2 := calls ++ [ExtCall.setScanMode SCAN_MODE_LOW_POWER 0]
  if isErr sRes then finishEGM st sRes calls2 eRes
  else finishEGM st OKcode calls2 eRes

/-- `enterGestureMode(reload)` (lines 192-232).  `dRes`, `fRes`, `sRes` and
`eRes` are the oracle results of `fts_disableInterruptNoSync`, the
`setFeatures` push inside `enableGesture(NULL, 0)`, `setScanMode` and
`fts_enableInterrupt`.  A disable failure returns
`res | ERROR_DISABLE_INTER` at once; failures of the push or of the scan
mode jump to `END:` where the interrupt is re-enabled. -/
def enterGestureMode (st : GState) (reload : Int) (dRes fRes sRes eRes : Nat) :
    GState × Nat × List ExtCall :=
  if isErr dRes then
    (st, dRes ||| ERROR_DISABLE_INTER, [ExtCall.disableInterrupt])
  else if reload = 1 ∨ st.refreshGestureMask = 1 then
    let r := enableGesture st none 0 fRes
    if isErr r.2.1 then
      finishEGM r.1 r.2.1 (ExtCall.disableInterrupt :: r.2.2) eRes
    else
      afterScan { r.1 with refreshGestureMask := 0 }
        (ExtCall.disableInterrupt :: r.2.2) sRes eRes
  else
    afterScan st [ExtCall.disableInterrupt] sRes eRes

/-- Decode of an x coordinate (lines 292-294):
`(((u16) val[i*2+1]) & 0x0F) << 8 | (((u16) val[i*2]) & 0xFF)`. -/
def decodeX (val : List Nat) (i : Nat) : Nat :=
  ((val.getD (i * 2 + 1) 0) &&& 0x0F) <<< 8 ||| ((val.getD (i * 2) 0) &&& 0xFF)

/-- Decode of a y coordinate (lines 295-300), offset by `count * 2` bytes:
`(((u16) val[count*2 + i*2+1]) & 0x0F) << 8 | (((u16) val[count*2 + i*2]) & 0xFF)`. -/
def decodeY (val : List Nat) (count i : Nat) : Nat :=
  ((val.getD (count * 2 + i * 2 + 1) 0) &&& 0x0F) <<< 8 |||
    ((val.getD (count * 2 + i * 2) 0) &&& 0xFF)

/-- The coordinate store loop (lines 291-301): entries with index `< count`
are overwritten with `f`, the rest of the static array keeps its old value.
`j` is the index of the head of `old`. -/
def overwriteIdx (f : Nat → Nat) : List Nat → Nat → Nat → List Nat
  | [], _, _ => []
  | b :: rest, j, count =>
    (if j < count then f j else b) :: overwriteIdx f rest (j + 1) count

/-- The count clamp of `readGestureCoords` (lines 271-278): the pair count
read from byte 5 of the event is lowered to `GESTURE_MAX_COORDS_PAIRS_REPORT`
when the firmware reports more (a signed `int` comparison in the source). -/
def clampCount (reported : Nat) : Nat :=
  if toSigned reported > (GESTURE_MAX_COORDS_PAIRS_REPORT : Int) then
    GESTURE_MAX_COORDS_PAIRS_REPORT
  else reported

/-- The single transport read of `readGestureCoords` (line 283):
`fts_writeReadU8UX(FTS_CMD_FRAMEBUFFER_R, BITS_16, address, val, count*2*2, DUMMY_FRAMEBUFFER)`. -/
def frameRead (event : List Nat) : ExtCall :=
  ExtCall.readFrameBuffer FTS_CMD_FRAMEBUFFER_R BITS_16
    ((event.getD 4 0) <<< 8 ||| event.getD 3 0)
    (clampCount (event.getD 5 0) * 2 * 2) DUMMY_FRAMEBUFFER

/-- `readGestureCoords(event)` (lines 261-312), continued: validates the
event header, clamps the count, issues the transport read, and on success
decodes the x then y coordinate pairs into the stored arrays. -/
def readGestureCoords (st : GState) (event : List Nat) (readRes : Nat)
    (val : List Nat) : GState × Nat × List ExtCall :=
  if event.getD 0 0 = EVT_ID_USER_REPORT ∧
      event.getD 1 0 = EVT_TYPE_USER_GESTURE then
    if isErr readRes then
      ({ st with gesture_coords_reported := ERROR_OP_NOT_ALLOW },
        readRes, [frameRead event])
    else
      ({ st with
          gesture_coords_reported := clampCount (event.getD 5 0)
          gesture_coordinates_x :=
            overwriteIdx (decodeX val) st.gesture_coordinates_x 0
              (clampCount (event.getD 5 0))
          gesture_coordinates_y :=
            overwriteIdx (decodeY val (clampCount (event.getD 5 0)))
              st.gesture_coordinates_y 0 (clampCount (event.getD 5 0)) },
        OKcode, [frameRead event])
  else (st, ERROR_OP_NOT_ALLOW, [])

/-- `getGestureCoords(x, y)` (lines 320-327): hands out the coordinate
arrays and returns `gesture_coords_reported`. -/
def getGestureCoords (st : GState) : List Nat × List Nat × Nat :=
  (st.gesture_coordinates_x, st.gesture_coordinates_y,
    st.gesture_coords_reported)

/-- Number of calls in a trace satisfying a predicate. -/
def countCalls (p : ExtCall → Bool) (l : List ExtCall) : Nat :=
  (l.filter p).length

/-- Recognizer for mask pushes (`setFeatures`). -/
def isSetFeaturesCall : ExtCall → Bool
  | ExtCall.setFeatures _ _ _ => true
  | _ => false

/-- Recognizer for scan-mode requests. -/
def isSetScanModeCall : ExtCall → Bool
  | ExtCall.setScanMode _ _ => true
  | _ => false

/-- Recognizer for interrupt re-enable calls. -/
def isEnableIntCall : ExtCall → Bool
  | ExtCall.enableInterrupt => true
  | _ => false

/-- Recognizer for interrupt disable calls. -/
def isDisableIntCall : ExtCall → Bool
  | ExtCall.disableInterrupt => true
  | _ => false

/-- A byte value is unchanged by the source's `& 0xFF`. -/
theorem and_ff_of_lt {a : Nat} (h : a < 256) : a &&& 255 = a := by
  apply Nat.eq_of_testBit_eq
  intro j
  rw [Nat.testBit_land]
  by_cases hj : j < 8
  · rw [Nat.testBit_two_pow_sub_one 8 j]; simp [hj]
  · have hle : (2 : Nat) ^ 8 ≤ 2 ^ j := Nat.pow_le_pow_right (by norm_num) (by omega)
    have h8 : a < 2 ^ 8 := by simpa using h
    simp [Nat.testBit_eq_false_of_lt (lt_of_lt_of_le h8 hle)]

/-- The disable step undoes the enable step on one byte exactly when the
delta is disjoint from the original byte. -/
theorem clearOp_orOp_of_disjoint {b d : Nat} (h : b &&& d = 0) :
    clearOp (orOp b d) d = b := by
  unfold clearOp orOp
  apply Nat.eq_of_testBit_eq
  intro j
  have hbd : (b.testBit j && d.testBit j) = false := by
    rw [← Nat.testBit_land, h, Nat.zero_testBit]
  rw [Nat.testBit_land, Nat.testBit_xor, Nat.testBit_lor]
  cases hb : b.testBit j <;> cases hd : d.testBit j <;> simp_all

/-- Reading the tail shifts the index by one. -/
theorem tail_getD (l : List Nat) (i : Nat) :
    l.tail.getD i 0 = l.getD (i + 1) 0 := by
  cases l <;> simp

/-- Every byte of a list of bytes, read with default `0`, is below 256. -/
theorem getD_lt_256 {l : List Nat} (h : ∀ b ∈ l, b < 256) (k : Nat) :
    l.getD k 0 < 256 := by
  induction l generalizing k with
  | nil => simp [List.getD]
  | cons a t ih =>
    cases k with
    | zero => simpa using h a (by simp)
    | succ k => simpa using ih (fun b hb => h b (by simp [hb])) k

/-- Entries before `count` in the coordinate store loop are the freshly
decoded values. -/
theorem overwriteIdx_getD (f : Nat → Nat) (old : List Nat) (j count i : Nat)
    (hi : j + i < count) (hlen : i < old.length) :
    (overwriteIdx f old j count).getD i 0 = f (j + i) := by
  induction old generalizing i j with
  | nil => simp at hlen
  | cons b rest ih =>
    cases i with
    | zero =>
      have hj : j < count := by omega
      simp [overwriteIdx, hj]
    | succ i =>
      have hlen2 : i < rest.length := by simp at hlen; omega
      have hrec := ih (j + 1) i (by omega) hlen2
      have harith : j + 1 + i = j + (i + 1) := by omega
      rw [harith] at hrec
      simpa [overwriteIdx] using hrec

/-- Clearing the delta after merging it restores the stored bytes when the
delta was disjoint from them. -/
theorem updBytes_clear_orOp (gm D : List Nat) (n : Nat)
    (hdisj : ∀ i, i < n → gm.getD i 0 &&& D.getD i 0 = 0) :
    updBytes clearOp (updBytes orOp gm D n) D n = gm := by
  induction gm generalizing D n with
  | nil => cases n <;> simp [updBytes]
  | cons b rest ih =>
    cases n with
    | zero => simp [updBytes]
    | succ n =>
      have h0 : b &&& D.getD 0 0 = 0 := by
        have := hdisj 0 (by omega)
        simpa using this
      have htail : ∀ i, i < n → rest.getD i 0 &&& D.tail.getD i 0 = 0 := by
        intro i hi
        rw [tail_getD]
        have := hdisj (i + 1) (by omega)
        simpa using this
      simp only [updBytes]
      rw [clearOp_orOp_of_disjoint h0, ih D.tail n htail]

/-- C6: an event buffer whose byte 0 is not the user-report id or whose
byte 1 is not the user-gesture type is rejected with `ERROR_OP_NOT_ALLOW`,
no transport read is issued, and the state (coordinate arrays and stored
count included) is unchanged. -/
theorem C6_invalid_header_rejected (st : GState) (event : List Nat)
    (readRes : Nat) (val : List Nat)
    (h : event.getD 0 0 ≠ EVT_ID_USER_REPORT ∨
         event.getD 1 0 ≠ EVT_TYPE_USER_GESTURE) :
    readGestureCoords st event readRes val = (st, ERROR_OP_NOT_ALLOW, []) := by
  have hnc : ¬ (event.getD 0 0 = EVT_ID_USER_REPORT ∧
      event.getD 1 0 = EVT_TYPE_USER_GESTURE) := by tauto
  unfold readGestureCoords
  rw [if_neg hnc]

/-- C6 witness: an all-zero header is rejected without a transport read. -/
theorem C6_invalid_header_rejected_witness :
    readGestureCoords initState [0, 0, 0, 0, 0, 3] 0 [] =
      (initState, ERROR_OP_NOT_ALLOW, []) :=
  C6_invalid_header_rejected initState [0, 0, 0, 0, 0, 3] 0 []
    (Or.inl (by decide))

/-- C7: when the frame-buffer read fails, the stored count becomes the
`ERROR_OP_NOT_ALLOW` sentinel, the transport error is returned unchanged,
and a subsequent `getGestureCoords` returns the sentinel as its count. -/
theorem C7_transport_failure_sets_sentinel (st : GState) (event : List Nat)
    (readRes : Nat) (val : List Nat)
    (h0 : event.getD 0 0 = EVT_ID_USER_REPORT)
    (h1 : event.getD 1 0 = EVT_TYPE_USER_GESTURE)
    (hfail : isErr readRes = true) :
    (readGestureCoords st event readRes val).1.gesture_coords_reported =
      ERROR_OP_NOT_ALLOW ∧
    (readGestureCoords st event readRes val).2.1 = readRes ∧
    (getGestureCoords (readGestureCoords st event readRes val).1).2.2 =
      ERROR_OP_NOT_ALLOW := by
  unfold readGestureCoords getGestureCoords
  rw [if_pos ⟨h0, h1⟩, if_pos hfail]
  exact ⟨rfl, rfl, rfl⟩

/-- C7 witness: a failing transport read on a valid header leaves the
sentinel count behind. -/
theorem C7_transport_failure_sets_sentinel_witness :
    (readGestureCoords initState [0x43, 0x02, 0, 0, 0, 2] 0x80000002 []).1.gesture_coords_reported =
      ERROR_OP_NOT_ALLOW ∧
    (readGestureCoords initState [0x43, 0x02, 0, 0, 0, 2] 0x80000002 []).2.1 =
      0x80000002 ∧
    (getGestureCoords (readGestureCoords initState [0x43, 0x02, 0, 0, 0, 2]
        0x80000002 []).1).2.2 = ERROR_OP_NOT_ALLOW :=
  C7_transport_failure_sets_sentinel initState [0x43, 0x02, 0, 0, 0, 2]
    0x80000002 [] (by decide) (by decide) (by decide)

/-- C8: when the interrupt disable fails, `enterGestureMode` returns the
underlying error OR-combined with `ERROR_DISABLE_INTER`, issues no mask
push, no scan-mode request and no interrupt re-enable, and leaves the state
unchanged. -/
theorem C8_disable_fail_returns_immediately (st : GState) (reload : Int)
    (dRes fRes sRes eRes : Nat) (h : isErr dRes = true) :
    enterGestureMode st reload dRes fRes sRes eRes =
      (st, dRes ||| ERROR_DISABLE_INTER, [ExtCall.disableInterrupt]) := by
  unfold enterGestureMode
  simp [h]

/-- C8 witness: a failing interrupt disable stops the sequence after one
call. -/
theorem C8_disable_fail_returns_immediately_witness :
    enterGestureMode initState 1 0x80000001 0 0 0 =
      (initState, 0x80000001 ||| ERROR_DISABLE_INTER,
        [ExtCall.disableInterrupt]) :=
  C8_disable_fail_returns_immediately initState 1 0x80000001 0 0 0 (by decide)

/-- C10: every failing argument combination of `updateGestureMask` (null
mask, oversize, or a selector that is neither `FEAT_ENABLE` nor
`FEAT_DISABLE`) returns `ERROR_OP_NOT_ALLOW` and leaves the stored mask and
`refreshGestureMask` (the whole state) unchanged. -/
theorem C10_updateGestureMask_error_atomic (st : GState)
    (mask : Option (List Nat)) (size en : Int)
    (h : mask = none ∨ (GESTURE_MASK_SIZE : Int) < size ∨
         (en ≠ FEAT_ENABLE ∧ en ≠ FEAT_DISABLE)) :
    updateGestureMask st mask size en = (st, ERROR_OP_NOT_ALLOW) := by
  unfold updateGestureMask
  rcases h with h | h | ⟨h1, h2⟩
  · simp [h]
  · cases mask with
    | none => rfl
    | some m => simp [not_le.mpr h]
  · cases mask with
    | none => rfl
    | some m =>
      by_cases hs : size ≤ (GESTURE_MASK_SIZE : Int)
      · simp [hs, h1, h2]
      · simp [hs]

/-- C10 witness: an invalid selector is rejected with the state intact. -/
theorem C10_updateGestureMask_error_atomic_witness :
    updateGestureMask initState (some [1]) 1 7 =
      (initState, ERROR_OP_NOT_ALLOW) :=
  C10_updateGestureMask_error_atomic initState (some [1]) 1 7
    (Or.inr (Or.inr (by decide)))

/-- C9: `disableGesture` with a null delta never mutates the stored mask,
and a following `enableGesture` with a null delta pushes exactly the mask
that existed before the disable call. -/
theorem C9_null_disable_then_enable_restores (st : GState) (fr1 fr2 : Nat) :
    (disableGesture st none 0 fr1).1 = st ∧
    (enableGesture (disableGesture st none 0 fr1).1 none 0 fr2).2.2 =
      [ExtCall.setFeatures FEAT_SEL_GESTURE st.gesture_mask
        GESTURE_MASK_SIZE] := by
  unfold disableGesture enableGesture
  norm_num [GESTURE_MASK_SIZE]

/-- A count byte larger than the maximum is clamped down (the source's
signed comparison at line 272 triggers). -/
theorem clampCount_of_gt {r : Nat} (h31 : r < 2 ^ 31)
    (h : GESTURE_MAX_COORDS_PAIRS_REPORT < r) :
    clampCount r = GESTURE_MAX_COORDS_PAIRS_REPORT := by
  unfold clampCount toSigned
  rw [if_pos h31, if_pos (by exact_mod_cast h)]

/-- A count byte within range is kept as reported. -/
theorem clampCount_of_le {r : Nat} (h : r ≤ GESTURE_MAX_COORDS_PAIRS_REPORT) :
    clampCount r = r := by
  have h31 : r < 2 ^ 31 := lt_of_le_of_lt h (by norm_num [GESTURE_MAX_COORDS_PAIRS_REPORT])
  unfold clampCount toSigned
  rw [if_pos h31, if_neg (by exact_mod_cast not_lt.mpr h)]

/-- C5: on a valid header whose pair count byte exceeds
`GESTURE_MAX_COORDS_PAIRS_REPORT`, `readGestureCoords` clamps the count,
treats the clamp as success (returns `OK` when the transport succeeds, with
the stored count equal to the maximum), and requests exactly
`GESTURE_MAX_COORDS_PAIRS_REPORT * 4` bytes at offset
`(event[4] << 8) | event[3]`; for counts within range it requests exactly
`count * 4` bytes. -/
theorem C5_count_clamped :
    (∀ st event readRes val,
      (event : List Nat).getD 0 0 = EVT_ID_USER_REPORT →
      event.getD 1 0 = EVT_TYPE_USER_GESTURE →
      event.getD 5 0 < 256 →
      GESTURE_MAX_COORDS_PAIRS_REPORT < event.getD 5 0 →
      (readGestureCoords st event readRes val).2.2 =
        [ExtCall.readFrameBuffer FTS_CMD_FRAMEBUFFER_R BITS_16
          ((event.getD 4 0) <<< 8 ||| event.getD 3 0)
          (GESTURE_MAX_COORDS_PAIRS_REPORT * 4) DUMMY_FRAMEBUFFER] ∧
      (isErr readRes = false →
        (readGestureCoords st event readRes val).2.1 = OKcode ∧
        (readGestureCoords st event readRes val).1.gesture_coords_reported =
          GESTURE_MAX_COORDS_PAIRS_REPORT)) ∧
    (∀ st event readRes val,
      (event : List Nat).getD 0 0 = EVT_ID_USER_REPORT →
      event.getD 1 0 = EVT_TYPE_USER_GESTURE →
      event.getD 5 0 ≤ GESTURE_MAX_COORDS_PAIRS_REPORT →
      (readGestureCoords st event readRes val).2.2 =
        [ExtCall.readFrameBuffer FTS_CMD_FRAMEBUFFER_R BITS_16
          ((event.getD 4 0) <<< 8 ||| event.getD 3 0)
          (event.getD 5 0 * 4) DUMMY_FRAMEBUFFER]) := by
  constructor
  · intro st event readRes val h0 h1 h256 hgt
    have hclamp : clampCount (event.getD 5 0) = GESTURE_MAX_COORDS_PAIRS_REPORT :=
      clampCount_of_gt (lt_trans h256 (by norm_num)) hgt
    unfold readGestureCoords frameRead
    rw [if_pos ⟨h0, h1⟩]
    refine ⟨?_, ?_⟩
    · have hclamp2 := hclamp
      simp only [List.getD_eq_getElem?_getD] at hclamp2
      cases hre : isErr readRes <;>
        simp [hre, hclamp2, GESTURE_MAX_COORDS_PAIRS_REPORT]
    · intro hok
      rw [if_neg (by simp [hok])]
      exact ⟨rfl, by dsimp; rw [hclamp]⟩
  · intro st event readRes val h0 h1 hle
    have hclamp : clampCount (event.getD 5 0) = event.getD 5 0 :=
      clampCount_of_le hle
    unfold readGestureCoords frameRead
    rw [if_pos ⟨h0, h1⟩]
    simp only [List.getD_eq_getElem?_getD] at hclamp
    cases hre : isErr readRes <;>
      simp [hre, hclamp, Nat.mul_assoc]

/-- C5 witness: a header reporting `MAX + 5 = 105` pairs is clamped to 100
and triggers a 400-byte transport read; a header reporting 3 pairs triggers
a 12-byte read. -/
theorem C5_count_clamped_witness :
    ((readGestureCoords initState [0x43, 0x02, 0, 0, 0, 105] 0 []).2.2 =
      [ExtCall.readFrameBuffer FTS_CMD_FRAMEBUFFER_R BITS_16
        (0 <<< 8 ||| 0) (GESTURE_MAX_COORDS_PAIRS_REPORT * 4)
        DUMMY_FRAMEBUFFER] ∧
     (readGestureCoords initState [0x43, 0x02, 0, 0, 0, 105]
        0 []).1.gesture_coords_reported = GESTURE_MAX_COORDS_PAIRS_REPORT) ∧
    (readGestureCoords initState [0x43, 0x02, 0, 0, 0, 3] 0 []).2.2 =
      [ExtCall.readFrameBuffer FTS_CMD_FRAMEBUFFER_R BITS_16
        (0 <<< 8 ||| 0) (3 * 4) DUMMY_FRAMEBUFFER] := by
  have hA := C5_count_clamped.1 initState [0x43, 0x02, 0, 0, 0, 105] 0 []
    (by decide) (by decide) (by decide) (by decide)
  have hB := C5_count_clamped.2 initState [0x43, 0x02, 0, 0, 0, 3] 0 []
    (by decide) (by decide) (by decide)
  exact ⟨⟨hA.1, (hA.2 (by decide)).2⟩, hB⟩

/-- C4: on a successful decode of a valid header reporting `c ≤ MAX` pairs,
the stored coordinates satisfy
`x[i] = ((buf[2i+1] & 0x0F) << 8) | buf[2i]` and
`y[i] = ((buf[2c+2i+1] & 0x0F) << 8) | buf[2c+2i]` for every `i < c`. -/
theorem C4_coordinate_decode (st : GState) (event buf : List Nat)
    (readRes : Nat) (c i : Nat)
    (h0 : event.getD 0 0 = EVT_ID_USER_REPORT)
    (h1 : event.getD 1 0 = EVT_TYPE_USER_GESTURE)
    (h5 : event.getD 5 0 = c)
    (hc : c ≤ GESTURE_MAX_COORDS_PAIRS_REPORT)
    (hi : i < c)
    (hb : ∀ b ∈ buf, b < 256)
    (hok : isErr readRes = false)
    (hlx : st.gesture_coordinates_x.length = GESTURE_MAX_COORDS_PAIRS_REPORT)
    (hly : st.gesture_coordinates_y.length = GESTURE_MAX_COORDS_PAIRS_REPORT) :
    (readGestureCoords st event readRes buf).1.gesture_coordinates_x.getD i 0 =
      ((buf.getD (2 * i + 1) 0) &&& 0x0F) <<< 8 ||| buf.getD (2 * i) 0 ∧
    (readGestureCoords st event readRes buf).1.gesture_coordinates_y.getD i 0 =
      ((buf.getD (2 * c + 2 * i + 1) 0) &&& 0x0F) <<< 8 |||
        buf.getD (2 * c + 2 * i) 0 := by
  have hclamp : clampCount (event.getD 5 0) = c := by
    rw [h5]; exact clampCount_of_le hc
  unfold readGestureCoords
  rw [if_pos ⟨h0, h1⟩, if_neg (by simp [hok])]
  dsimp only
  rw [hclamp]
  have hx := overwriteIdx_getD (decodeX buf) st.gesture_coordinates_x 0 c i
    (by omega) (by omega)
  have hy := overwriteIdx_getD (decodeY buf c) st.gesture_coordinates_y 0 c i
    (by omega) (by omega)
  rw [Nat.zero_add] at hx hy
  constructor
  · rw [hx]
    unfold decodeX
    rw [Nat.mul_comm i 2, and_ff_of_lt (getD_lt_256 hb (2 * i))]
  · rw [hy]
    unfold decodeY
    have e2 : c * 2 + i * 2 = 2 * c + 2 * i := by ring
    rw [e2, and_ff_of_lt (getD_lt_256 hb (2 * c + 2 * i))]

/-- C4 witness: the count-1 payload `[0xBC, 0x0A, 0xEF, 0x0D]` decodes to
`x[0] = 0x0ABC` and `y[0] = 0x0DEF`. -/
theorem C4_coordinate_decode_witness :
    (readGestureCoords initState [0x43, 0x02, 0, 0, 0, 1] 0
      [0xBC, 0x0A, 0xEF, 0x0D]).1.gesture_coordinates_x.getD 0 0 = 0x0ABC ∧
    (readGestureCoords initState [0x43, 0x02, 0, 0, 0, 1] 0
      [0xBC, 0x0A, 0xEF, 0x0D]).1.gesture_coordinates_y.getD 0 0 = 0x0DEF := by
  have h := C4_coordinate_decode initState [0x43, 0x02, 0, 0, 0, 1]
    [0xBC, 0x0A, 0xEF, 0x0D] 0 1 0 (by decide) (by decide) (by decide)
    (by decide) (by decide) (by decide) (by decide) (by decide) (by decide)
  exact ⟨h.1.trans (by decide), h.2.trans (by decide)⟩

/-- C2, as stated, is false: with pre-merge mask byte `1`, delta `[1]` and
size 1, merging then clearing leaves the low byte `0`, not its pre-merge
value `1` (a bit already set before the merge is lost by the clear). -/
theorem C2_counterexample :
    (updateGestureMask (updateGestureMask
          { initState with gesture_mask := [1, 0, 0, 0] } (some [1]) 1
          FEAT_ENABLE).1 (some [1]) 1 FEAT_DISABLE).1.gesture_mask ≠
      [1, 0, 0, 0] := by decide

/-- C2 (amended): if the delta `D` is disjoint from the stored mask on the
low `s` bytes (`mask[i] & D[i] = 0` for `i < s`), then `mergeEnable(D, s)`
followed by `clearBits(D, s)` restores the stored mask exactly; in general
each affected byte ends as its pre-merge value with the delta's bits
cleared. -/
theorem C2_amended_merge_then_clear (st : GState) (D : List Nat) (s : Int)
    (hs : s ≤ (GESTURE_MASK_SIZE : Int))
    (hdisj : ∀ i, i < s.toNat →
      st.gesture_mask.getD i 0 &&& D.getD i 0 = 0) :
    (updateGestureMask (updateGestureMask st (some D) s FEAT_ENABLE).1
        (some D) s FEAT_DISABLE).1.gesture_mask = st.gesture_mask := by
  have h1 : (updateGestureMask st (some D) s FEAT_ENABLE).1 =
      { st with gesture_mask := updBytes orOp st.gesture_mask D s.toNat
                refreshGestureMask := 1 } := by
    unfold updateGestureMask
    dsimp only
    rw [if_pos hs, if_pos rfl]
  rw [h1]
  unfold updateGestureMask
  dsimp only
  rw [if_pos hs, if_neg (by decide : ¬ FEAT_DISABLE = FEAT_ENABLE),
    if_pos rfl]
  exact updBytes_clear_orOp st.gesture_mask D s.toNat hdisj

/-- C2 witness: from the all-zero mask, merging `[3, 5]` over 2 bytes and
then clearing it restores the all-zero mask. -/
theorem C2_amended_merge_then_clear_witness :
    (∀ i, i < (2 : Int).toNat →
      initState.gesture_mask.getD i 0 &&& ([3, 5].getD i 0) = 0) ∧
    (updateGestureMask (updateGestureMask initState (some [3, 5]) 2
        FEAT_ENABLE).1 (some [3, 5]) 2 FEAT_DISABLE).1.gesture_mask =
      initState.gesture_mask :=
  ⟨by decide, C2_amended_merge_then_clear initState [3, 5] 2 (by decide)
    (by decide)⟩

/-- C1, as stated, is false: with a successful interrupt disable
(`dRes = 0`) and a failing mask push (`fRes = 0x80000002`),
`enterGestureMode(reload = 1)` jumps to `END:` and issues zero scan-mode
requests, not exactly one. -/
theorem C1_counterexample :
    isErr 0 = false ∧
    countCalls isSetScanModeCall
      (enterGestureMode initState 1 0 0x80000002 0 0).2.2 = 0 := by decide

/-- Success code is not an error under the signed comparison. -/
theorem isErr_OKcode : isErr OKcode = false := by decide

/-- The trace of `enterGestureMode(reload = 1)` after a successful interrupt
disable: the mask push always happens; the scan-mode request happens only if
the push succeeded; the interrupt re-enable always closes the trace. -/
theorem enterGestureMode_trace (st : GState) (dRes fRes sRes eRes : Nat)
    (hd : isErr dRes = false) :
    (enterGestureMode st 1 dRes fRes sRes eRes).2.2 =
      if isErr fRes then
        [ExtCall.disableInterrupt,
         ExtCall.setFeatures FEAT_SEL_GESTURE st.gesture_mask
           GESTURE_MASK_SIZE,
         ExtCall.enableInterrupt]
      else
        [ExtCall.disableInterrupt,
         ExtCall.setFeatures FEAT_SEL_GESTURE st.gesture_mask
           GESTURE_MASK_SIZE,
         ExtCall.setScanMode SCAN_MODE_LOW_POWER 0,
         ExtCall.enableInterrupt] := by
  unfold enterGestureMode enableGesture afterScan finishEGM
  rw [if_neg (by simp [hd]),
    if_pos (Or.inl rfl : (1 : Int) = 1 ∨ st.refreshGestureMask = 1),
    if_pos (by norm_num [GESTURE_MASK_SIZE] : (0 : Int) ≤ (GESTURE_MASK_SIZE : Int))]
  dsimp only
  cases hf : isErr fRes <;> cases hs : isErr sRes <;> cases he : isErr eRes <;>
    simp [hf, hs, he, isErr_OKcode]

/-- C1 (amended): when the interrupt disable succeeds,
`enterGestureMode(reload = 1)` issues exactly one interrupt disable, one
mask push and one interrupt re-enable, even if the push or the scan-mode
call fails; the scan-mode request is issued exactly once when the push
succeeds and not at all when the push fails. -/
theorem C1_amended_call_counts (st : GState) (dRes fRes sRes eRes : Nat)
    (hd : isErr dRes = false) :
    countCalls isDisableIntCall
      (enterGestureMode st 1 dRes fRes sRes eRes).2.2 = 1 ∧
    countCalls isSetFeaturesCall
      (enterGestureMode st 1 dRes fRes sRes eRes).2.2 = 1 ∧
    countCalls isEnableIntCall
      (enterGestureMode st 1 dRes fRes sRes eRes).2.2 = 1 ∧
    countCalls isSetScanModeCall
      (enterGestureMode st 1 dRes fRes sRes eRes).2.2 =
      (if isErr fRes then 0 else 1) := by
  have ht := enterGestureMode_trace st dRes fRes sRes eRes hd
  cases hf : isErr fRes <;> rw [hf] at ht <;>
    simp [ht, hf, countCalls, isDisableIntCall, isSetFeaturesCall,
      isEnableIntCall, isSetScanModeCall]

/-- C1 witness: with all oracles succeeding, each of the four collaborator
calls is issued exactly once. -/
theorem C1_amended_call_counts_witness :
    countCalls isDisableIntCall (enterGestureMode initState 1 0 0 0 0).2.2 = 1 ∧
    countCalls isSetFeaturesCall (enterGestureMode initState 1 0 0 0 0).2.2 = 1 ∧
    countCalls isEnableIntCall (enterGestureMode initState 1 0 0 0 0).2.2 = 1 ∧
    countCalls isSetScanModeCall (enterGestureMode initState 1 0 0 0 0).2.2 =
      (if isErr 0 then 0 else 1) :=
  C1_amended_call_counts initState 0 0 0 0 (by decide)

/-- The driver state paired with a ghost record of the mask bytes most
recently transmitted to (and accepted by) the firmware, used to state the
RefreshFlag invariant of the spec. -/
structure SyncState where
  drv : GState
  fw : List Nat
  deriving Repr, DecidableEq

/-- Reachability of a driver/firmware state pair from the initial all-zero,
flag-clear, in-sync state under the operations named by the spec invariant:
`updateGestureMask` (merge/clear), `enableGesture` (push-enable),
`disableGesture` (push-disable) and `enterGestureMode`.  The ghost firmware
mask follows every `setFeatures` payload whose oracle result is a success. -/
inductive Reach : SyncState → Prop where
  | init : Reach ⟨initState, List.replicate GESTURE_MASK_SIZE 0⟩
  | upd (s : SyncState) (mask : Option (List Nat)) (size en : Int) :
      Reach s → Reach ⟨(updateGestureMask s.drv mask size en).1, s.fw⟩
  | push (s : SyncState) (mask : Option (List Nat)) (size : Int)
      (featRes : Nat) : Reach s →
      Reach ⟨(enableGesture s.drv mask size featRes).1,
        if size ≤ (GESTURE_MASK_SIZE : Int) ∧ isErr featRes = false then
          (enableGesture s.drv mask size featRes).1.gesture_mask
        else s.fw⟩
  | pushOff (s : SyncState) (mask : Option (List Nat)) (size : Int)
      (featRes : Nat) : Reach s →
      Reach ⟨(disableGesture s.drv mask size featRes).1,
        if size ≤ (GESTURE_MASK_SIZE : Int) ∧ isErr featRes = false then
          (if mask.isSome then
            (disableGesture s.drv mask size featRes).1.gesture_mask
          else List.replicate GESTURE_MASK_SIZE 0)
        else s.fw⟩
  | enter (s : SyncState) (reload : Int) (dRes fRes sRes eRes : Nat) :
      Reach s →
      Reach ⟨(enterGestureMode s.drv reload dRes fRes sRes eRes).1,
        if isErr dRes = false ∧
            (reload = 1 ∨ s.drv.refreshGestureMask = 1) ∧
            isErr fRes = false then
          s.drv.gesture_mask
        else s.fw⟩

/-- C3, as stated, is false: one successful `updateGestureMask` with delta
`[0]` sets RefreshFlag without changing the mask, reaching a state where the
flag is set although the firmware has seen every mask change. -/
theorem C3_counterexample :
    ¬ ∀ s : SyncState, Reach s →
        (s.drv.refreshGestureMask = 1 ↔ s.drv.gesture_mask ≠ s.fw) := by
  intro h
  have h2 := h _ (Reach.upd _ (some [0]) 1 FEAT_ENABLE Reach.init)
  exact absurd h2 (by decide)

/-- C3 (amended): RefreshFlag records pending `updateGestureMask` edits
rather than firmware synchronization: every successful `updateGestureMask`
sets it (even when the stored mask value is unchanged), `enableGesture` and
`disableGesture` never change it (even though they transmit the mask), and
the successful reload push inside `enterGestureMode` clears it. -/
theorem C3_amended_refresh_flag_dynamics :
    (∀ (st : GState) (mask : Option (List Nat)) (size en : Int),
      (updateGestureMask st mask size en).2 = OKcode →
      (updateGestureMask st mask size en).1.refreshGestureMask = 1) ∧
    (∀ (st : GState) (mask : Option (List Nat)) (size : Int) (featRes : Nat),
      (enableGesture st mask size featRes).1.refreshGestureMask =
        st.refreshGestureMask) ∧
    (∀ (st : GState) (mask : Option (List Nat)) (size : Int) (featRes : Nat),
      (disableGesture st mask size featRes).1.refreshGestureMask =
        st.refreshGestureMask) ∧
    (∀ (st : GState) (reload : Int) (dRes fRes sRes eRes : Nat),
      isErr dRes = false → (reload = 1 ∨ st.refreshGestureMask = 1) →
      isErr fRes = false →
      (enterGestureMode st reload dRes fRes sRes eRes).1.refreshGestureMask
        = 0) := by
  refine ⟨?_, ?_, ?_, ?_⟩
  · intro st mask size en h
    unfold updateGestureMask at h ⊢
    cases mask with
    | none =>
      dsimp only at h
      exact absurd h (by decide)
    | some m =>
      dsimp only at h ⊢
      by_cases hsz : size ≤ (GESTURE_MASK_SIZE : Int)
      · rw [if_pos hsz] at h ⊢
        by_cases he1 : en = FEAT_ENABLE
        · rw [if_pos he1]
        · rw [if_neg he1] at h ⊢
          by_cases he0 : en = FEAT_DISABLE
          · rw [if_pos he0]
          · rw [if_neg he0] at h
            dsimp only at h
            exact absurd h (by decide)
      · rw [if_neg hsz] at h
        dsimp only at h
        exact absurd h (by decide)
  · intro st mask size featRes
    unfold enableGesture
    by_cases hsz : size ≤ (GESTURE_MASK_SIZE : Int)
    · rw [if_pos hsz]; cases mask <;> rfl
    · rw [if_neg hsz]
  · intro st mask size featRes
    unfold disableGesture
    by_cases hsz : size ≤ (GESTURE_MASK_SIZE : Int)
    · rw [if_pos hsz]; cases mask <;> rfl
    · rw [if_neg hsz]
  · intro st reload dRes fRes sRes eRes hd hbr hf
    have hok : (enableGesture st none 0 fRes).2.1 = OKcode := by
      unfold enableGesture
      rw [if_pos (by norm_num [GESTURE_MASK_SIZE])]
      dsimp only
      rw [if_neg (by simp [hf])]
    unfold enterGestureMode afterScan finishEGM
    rw [if_neg (by simp [hd]), if_pos hbr]
    simp only [hok]
    rw [if_neg (by decide : ¬ isErr OKcode = true)]
    cases hs : isErr sRes <;> cases he : isErr eRes <;> simp [hs, he]

/-- C3 witness: a successful no-op `updateGestureMask` sets the flag, and a
successful reload push inside `enterGestureMode` clears it. -/
theorem C3_amended_refresh_flag_dynamics_witness :
    (updateGestureMask initState (some [1]) 1
      FEAT_ENABLE).1.refreshGestureMask = 1 ∧
    (enterGestureMode { initState with refreshGestureMask := 1 } 0 0 0 0
      0).1.refreshGestureMask = 0 :=
  ⟨C3_amended_refresh_flag_dynamics.1 initState (some [1]) 1 FEAT_ENABLE
      (by decide),
   C3_amended_refresh_flag_dynamics.2.2.2
      { initState with refreshGestureMask := 1 } 0 0 0 0 0 (by decide)
      (Or.inr (by decide)) (by decide)⟩
